import Mathlib

/-!
# PetPal load-cell firmware: `MqttClient` and `WifiClient`

A shallow embedding of `src/ESP8266/LoadcellMQTT/MqttClient.cpp` and
`src/ESP8266/LoadcellMQTT/WifiClient.cpp`.

* The file-scope variables `_msg` and `_topic` of `MqttClient.cpp` are fields
  of `World`, the process-wide state.  `World` also records what the code
  does to its surroundings: `calls` is the ordered list of calls made into
  the MQTT library, the WiFi platform and `delay`, and `serial` is the text
  written to `Serial`.
* A `MqttClient` object owns its `_mqtt_client` member (the state of the
  library object) and the pointer/count pair `_subscribe_topics`,
  `_num_subscribe_topics`.
* The MQTT library and the WiFi platform are not part of the repository; they
  are parameters (`MQTTLib`, `WiFiLib`): arbitrary state machines answering
  the calls the code makes.
* The two `while` loops have no bound in the source.  They are embedded with
  a `fuel` argument that bounds the number of loop tests; running out of fuel
  gives `none`.
-/

namespace PetPal

/-! ## Process-wide state and observable effects -/

/-- A call made by the firmware into the MQTT library, the WiFi platform or
`delay`, together with the answer it received where the code looks at it. -/
inductive Event where
  | mqttBegin (ip : String) (port : Int)
  | setKeepAlive (seconds : Int)
  | setCleanSession (clean : Bool)
  | onMessage
  | mqttConnect (client_id : String) (ok : Bool)
  | subscribe (topic : String) (ok : Bool)
  | publish (topic : String) (msg : String)
  | connected (answer : Bool)
  | mqttLoop
  | delay (ms : Nat)
  | wifiBegin (ssid : String) (pass : String)
  | wifiStatus (status : Nat)
  | wifiLocalIP
  deriving DecidableEq, Repr

/-- The process-wide state: the globals `_msg`, `_topic` (MqttClient.cpp lines
6-7), the calls made so far (oldest first) and the text sent to `Serial`. -/
structure World where
  _msg : String
  _topic : String
  calls : List Event
  serial : String
  deriving DecidableEq, Repr

/-- Record one call. -/
def World.call (w : World) (e : Event) : World :=
  { w with calls := w.calls ++ [e] }

/-- The call `Serial.print(s)`. -/
def World.print (w : World) (s : String) : World :=
  { w with serial := w.serial ++ s }

/-- The call `Serial.println(s)`: the text followed by CR LF. -/
def World.println (w : World) (s : String) : World :=
  { w with serial := w.serial ++ s ++ "\r\n" }

/-- The call `delay(ms)`. -/
def World.delay (w : World) (ms : Nat) : World :=
  w.call (Event.delay ms)

/-- The state at program start: both strings empty, nothing done yet. -/
def World.boot : World :=
  { _msg := "", _topic := "", calls := [], serial := "" }

/-! ## The collaborators -/

/-- Modelled from the spec: the MQTT client library behind `<MQTT.h>` (spec
section 6), which is not part of the repository.  `τ` is the state of one
library object.  Every operation may change that state.  `connect`,
`subscribe` and `connected` answer with a `Bool`; `loop` services pending I/O
and hands back the messages for which it fires the registered callback, in
order (spec section 5: the callback is invoked from within `poll`, so no
other operation fires it); the result of `publish` is not looked at by the
code. -/
structure MQTTLib (τ : Type) where
  fresh : τ
  begin : τ → String → Int → τ
  setKeepAlive : τ → Int → τ
  setCleanSession : τ → Bool → τ
  onMessage : τ → τ
  connect : τ → String → Bool × τ
  subscribe : τ → String → Bool × τ
  publish : τ → String → String → τ
  connected : τ → Bool × τ
  loop : τ → List (String × String) × τ

/-- Modelled from the spec: the WiFi platform behind `<ESP8266WiFi.h>` (spec
section 6), which is not part of the repository.  `ω` is the state of the
global `WiFi` object, `WL_CONNECTED` the status code meaning associated, and
`localIP` the printed form of the assigned address. -/
structure WiFiLib (ω : Type) where
  WL_CONNECTED : Nat
  begin : ω → String → String → ω
  status : ω → Nat × ω
  localIP : ω → String

/-! ## MqttClient.cpp -/

/-- The function `callback` (lines 11-14): `_msg = payload; _topic = topic;`. -/
def callback (topic payload : String) (w : World) : World :=
  let w1 := { w with _msg := payload }
  { w1 with _topic := topic }

/-- The library firing the registered callback once per delivered message. -/
def deliver (ds : List (String × String)) (w : World) : World :=
  ds.foldl (fun acc d => callback d.1 d.2 acc) w

/-- An `MqttClient` object: the library object and the pointer/count pair.
`_subscribe_topics` is the sequence of strings the pointer refers to
(`nullptr` refers to none). -/
structure MqttClient (τ : Type) where
  _mqtt_client : τ
  _subscribe_topics : List String
  _num_subscribe_topics : Int

/-- The four library calls both constructors start with (lines 19-22 and
33-36). -/
def MqttClient.setup {τ : Type} (lib : MQTTLib τ) (mqtt_broker_ip : String)
    (mqtt_broker_port : Int) (w : World) : τ × World :=
  let t1 := lib.begin lib.fresh mqtt_broker_ip mqtt_broker_port
  let w1 := w.call (Event.mqttBegin mqtt_broker_ip mqtt_broker_port)
  let t2 := lib.setKeepAlive t1 30
  let w2 := w1.call (Event.setKeepAlive 30)
  let t3 := lib.setCleanSession t2 true
  let w3 := w2.call (Event.setCleanSession true)
  let t4 := lib.onMessage t3
  let w4 := w3.call Event.onMessage
  (t4, w4)

/-- The constructor without a subscription list (lines 17-27). -/
def MqttClient.new {τ : Type} (lib : MQTTLib τ) (mqtt_broker_ip : String)
    (mqtt_broker_port : Int) (w : World) : MqttClient τ × World :=
  let r := MqttClient.setup lib mqtt_broker_ip mqtt_broker_port w
  ({ _mqtt_client := r.1, _subscribe_topics := [], _num_subscribe_topics := 0 }, r.2)

/-- The constructor with a subscription list (lines 30-41). -/
def MqttClient.newWithTopics {τ : Type} (lib : MQTTLib τ) (mqtt_broker_ip : String)
    (mqtt_broker_port : Int) (subscribe_topics : List String)
    (num_subscribe_topics : Int) (w : World) : MqttClient τ × World :=
  let r := MqttClient.setup lib mqtt_broker_ip mqtt_broker_port w
  ({ _mqtt_client := r.1, _subscribe_topics := subscribe_topics,
     _num_subscribe_topics := num_subscribe_topics }, r.2)

/-- The loop `while (!_mqtt_client.connect(client_id)) { print("."); delay(1000); }`
(lines 45-48).  `fuel` bounds the number of handshake attempts. -/
def connectLoop {τ : Type} (lib : MQTTLib τ) (client_id : String) :
    Nat → τ → World → Option (τ × World)
  | 0, _, _ => none
  | fuel + 1, t, w =>
    let r := lib.connect t client_id
    let w1 := w.call (Event.mqttConnect client_id r.1)
    if r.1 then some (r.2, w1)
    else connectLoop lib client_id fuel r.2 ((w1.print ".").delay 1000)

/-- The loop `for (int i = 0; i < _num_subscribe_topics; i++)` (lines 52-59),
entered at index `i` with `todo` iterations left.  Reading
`_subscribe_topics[i]` past the end of what the pointer refers to is
undefined behaviour: `none`. -/
def subscribeLoop {τ : Type} (lib : MQTTLib τ) (subscribe_topics : List String) :
    Nat → Nat → τ → World → Option (τ × World)
  | 0, _, t, w => some (t, w)
  | todo + 1, i, t, w =>
    match subscribe_topics[i]? with
    | none => none
    | some topic =>
      let r := lib.subscribe t topic
      let w1 := w.call (Event.subscribe topic r.1)
      let w2 := if r.1 then w1.println ("Subscribed to topic: " ++ topic)
                else w1.println ("Subscribe failed: " ++ topic)
      subscribeLoop lib subscribe_topics todo (i + 1) r.2 w2

/-- `MqttClient::connect` (lines 43-60). -/
def MqttClient.connect {τ : Type} (lib : MQTTLib τ) (fuel : Nat) (self : MqttClient τ)
    (client_id : String) (w : World) : Option (MqttClient τ × World) :=
  let w0 := w.print "Connecting to MQTT broker... "
  match connectLoop lib client_id fuel self._mqtt_client w0 with
  | none => none
  | some (t1, w1) =>
    let w2 := w1.println "done!"
    match subscribeLoop lib self._subscribe_topics self._num_subscribe_topics.toNat 0 t1 w2 with
    | none => none
    | some (t2, w3) => some ({ self with _mqtt_client := t2 }, w3)

/-- `MqttClient::publish_message` (lines 62-66). -/
def MqttClient.publish_message {τ : Type} (lib : MQTTLib τ) (self : MqttClient τ)
    (topic msg : String) (w : World) : MqttClient τ × World :=
  let c := lib.connected self._mqtt_client
  let w1 := w.call (Event.connected c.1)
  if !c.1 then ({ self with _mqtt_client := c.2 }, w1)
  else
    let t2 := lib.publish c.2 topic msg
    let w2 := w1.call (Event.publish topic msg)
    let w3 := w2.println ("Message published [ " ++ topic ++ " ]: " ++ msg)
    ({ self with _mqtt_client := t2 }, w3)

/-- `MqttClient::check_connection` (lines 68-75).  The callback runs, inside
`loop`, once for every message the library delivers. -/
def MqttClient.check_connection {τ : Type} (lib : MQTTLib τ) (fuel : Nat)
    (self : MqttClient τ) (client_id : String) (w : World) :
    Option (MqttClient τ × World) :=
  let l := lib.loop self._mqtt_client
  let w1 := deliver l.1 (w.call Event.mqttLoop)
  let c := lib.connected l.2
  let w2 := w1.call (Event.connected c.1)
  if !c.1 then
    let w3 := w2.println "MQTT disconnected, reconnecting..."
    MqttClient.connect lib fuel { self with _mqtt_client := c.2 } client_id w3
  else some ({ self with _mqtt_client := c.2 }, w2)

/-- `MqttClient::get_msg` (line 77): returns a copy of `_msg`. -/
def MqttClient.get_msg {τ : Type} (_self : MqttClient τ) (w : World) : String × World :=
  (w._msg, w)

/-- `MqttClient::get_topic` (line 78): returns a copy of `_topic`. -/
def MqttClient.get_topic {τ : Type} (_self : MqttClient τ) (w : World) : String × World :=
  (w._topic, w)

/-- `MqttClient::reset_msg` (lines 80-83): `_msg = ""; _topic = "";`. -/
def MqttClient.reset_msg {τ : Type} (_self : MqttClient τ) (w : World) : World :=
  let w1 := { w with _msg := "" }
  { w1 with _topic := "" }

/-! ## WifiClient.cpp -/

/-- A `WifiClient` object: the stored credentials. -/
structure WifiClient where
  _ssid : String
  _pass : String
  deriving DecidableEq, Repr

/-- The constructor (lines 3-7): stores both arguments, nothing else. -/
def WifiClient.new (ssid pass : String) : WifiClient :=
  { _ssid := ssid, _pass := pass }

/-- The loop `while (WiFi.status() != WL_CONNECTED) { delay(500); print("."); }`
(lines 16-19).  `fuel` bounds the number of status queries. -/
def statusLoop {ω : Type} (wifi : WiFiLib ω) : Nat → ω → World → Option (ω × World)
  | 0, _, _ => none
  | fuel + 1, p, w =>
    let r := wifi.status p
    let w1 := w.call (Event.wifiStatus r.1)
    if r.1 != wifi.WL_CONNECTED then statusLoop wifi fuel r.2 ((w1.delay 500).print ".")
    else some (r.2, w1)

/-- `WifiClient::connect` (lines 10-24).  The local `WiFiClient wifiClient` is
never used. -/
def WifiClient.connect {ω : Type} (wifi : WiFiLib ω) (fuel : Nat) (self : WifiClient)
    (p : ω) (w : World) : Option (ω × World) :=
  let w0 := w.print ("Connecting to WPA SSID [" ++ self._ssid ++ "]...")
  let p1 := wifi.begin p self._ssid self._pass
  let w1 := w0.call (Event.wifiBegin self._ssid self._pass)
  match statusLoop wifi fuel p1 w1 with
  | none => none
  | some (p2, w2) =>
    let w3 := w2.println ""
    let w4 := w3.println "WiFi connected"
    let w5 := w4.println "IP address is: "
    let w6 := (w5.call Event.wifiLocalIP).println (wifi.localIP p2)
    some (p2, w6)

/-! ## Vocabulary of the statements -/

/-- The count does not exceed the number of strings the pointer refers to. -/
def MqttClient.WellFormed {τ : Type} (self : MqttClient τ) : Prop :=
  self._num_subscribe_topics ≤ self._subscribe_topics.length

/-- The subscription list `L` of a session: the first `_num_subscribe_topics`
strings behind `_subscribe_topics`. -/
def MqttClient.topicList {τ : Type} (self : MqttClient τ) : List String :=
  self._subscribe_topics.take self._num_subscribe_topics.toNat

/-- The library object after `n` consecutive handshake attempts. -/
def handshakeState {τ : Type} (lib : MQTTLib τ) (client_id : String) : Nat → τ → τ
  | 0, t => t
  | n + 1, t => handshakeState lib client_id n (lib.connect t client_id).2

/-- The outcome of handshake attempt number `n` (0-based) of a run of
consecutive attempts that starts in `t`. -/
def handshakeOutcome {τ : Type} (lib : MQTTLib τ) (client_id : String) (n : Nat) (t : τ) :
    Bool :=
  (lib.connect (handshakeState lib client_id n t) client_id).1

/-- The first successful handshake of the run starting in `t` is attempt `k`. -/
def FirstSuccessAt {τ : Type} (lib : MQTTLib τ) (client_id : String) (t : τ) (k : Nat) :
    Prop :=
  (∀ i, i < k → handshakeOutcome lib client_id i t = false) ∧
    handshakeOutcome lib client_id k t = true

/-- The calls of a retry loop whose first success is attempt `k`: `k` times a
failed attempt followed by a wait of 1000 ms, then the successful attempt. -/
def handshakeCalls (client_id : String) (k : Nat) : List Event :=
  (List.replicate k [Event.mqttConnect client_id false, Event.delay 1000]).flatten ++
    [Event.mqttConnect client_id true]

/-- The event `e` is a subscribe call carrying `topic`, whatever its outcome. -/
def IsSubscribeTo (e : Event) (topic : String) : Prop :=
  ∃ ok, e = Event.subscribe topic ok

/-- The calls of one connect sequence of a session with list `topics`: the
retry loop, then one pass of subscribe calls, one per topic, in order. -/
def IsConnectSequence (client_id : String) (k : Nat) (topics : List String)
    (evs : List Event) : Prop :=
  ∃ pass, evs = handshakeCalls client_id k ++ pass ∧ List.Forall₂ IsSubscribeTo pass topics

/-- The WiFi object after `n` consecutive status queries. -/
def statusState {ω : Type} (wifi : WiFiLib ω) : Nat → ω → ω
  | 0, p => p
  | n + 1, p => statusState wifi n (wifi.status p).2

/-- The status observed by query number `n` (0-based) of a run starting in `p`. -/
def statusAt {ω : Type} (wifi : WiFiLib ω) (n : Nat) (p : ω) : Nat :=
  (wifi.status (statusState wifi n p)).1

/-- The first observation equal to `WL_CONNECTED` is number `k`. -/
def FirstConnectedAt {ω : Type} (wifi : WiFiLib ω) (p : ω) (k : Nat) : Prop :=
  (∀ i, i < k → statusAt wifi i p ≠ wifi.WL_CONNECTED) ∧
    statusAt wifi k p = wifi.WL_CONNECTED

/-- The calls of a status loop whose first "connected" is observation `k`,
starting in `p`: `k` times an observation followed by a wait of 500 ms, then
the observation of `WL_CONNECTED`. -/
def pollCalls {ω : Type} (wifi : WiFiLib ω) : Nat → ω → List Event
  | 0, _ => [Event.wifiStatus wifi.WL_CONNECTED]
  | k + 1, p =>
    Event.wifiStatus (wifi.status p).1 :: Event.delay 500 ::
      pollCalls wifi k (wifi.status p).2

/-- The number of status queries among some calls. -/
def statusQueries (evs : List Event) : Nat :=
  evs.countP fun e => match e with
    | Event.wifiStatus _ => true
    | _ => false

/-- The waits among some calls, in order. -/
def waits (evs : List Event) : List Nat :=
  evs.filterMap fun e => match e with
    | Event.delay ms => some ms
    | _ => none

/-- The handshake attempts among some calls, in order: client id and outcome. -/
def handshakes (evs : List Event) : List (String × Bool) :=
  evs.filterMap fun e => match e with
    | Event.mqttConnect c ok => some (c, ok)
    | _ => none

/-- The topics of the subscribe calls among some calls, in order. -/
def subscribedTopics (evs : List Event) : List String :=
  evs.filterMap fun e => match e with
    | Event.subscribe topic _ => some topic
    | _ => none

/-- The association requests among some calls, in order. -/
def associations (evs : List Event) : List (String × String) :=
  evs.filterMap fun e => match e with
    | Event.wifiBegin ssid pass => some (ssid, pass)
    | _ => none

/-- One call that reads or publishes between two deliveries. -/
inductive Access where
  | get_topic
  | get_msg
  | publish_message (topic : String) (msg : String)
  deriving DecidableEq, Repr

/-- Perform one `Access` on a session. -/
def runAccess {τ : Type} (lib : MQTTLib τ) (sw : MqttClient τ × World) :
    Access → MqttClient τ × World
  | Access.get_topic => (sw.1, (sw.1.get_topic sw.2).2)
  | Access.get_msg => (sw.1, (sw.1.get_msg sw.2).2)
  | Access.publish_message topic msg => sw.1.publish_message lib topic msg sw.2

/-- Perform a sequence of `Access` calls, first to last. -/
def runAccesses {τ : Type} (lib : MQTTLib τ) (sw : MqttClient τ × World)
    (ops : List Access) : MqttClient τ × World :=
  ops.foldl (runAccess lib) sw

/-- The end-to-end scenario of the specification: a session for broker
("10.0.0.5", 1883) with two topics, `connect("cell1")`, a delivery of
("sensors/weight", "12.34"), `reset_msg`, then both accessors.  The result is
what `get_topic` and `get_msg` return at the end. -/
def scenario {τ : Type} (lib : MQTTLib τ) (fuel : Nat) (w : World) :
    Option (String × String) :=
  let sw := MqttClient.newWithTopics lib "10.0.0.5" 1883
    ["sensors/weight", "sensors/status"] 2 w
  match sw.1.connect lib fuel "cell1" sw.2 with
  | none => none
  | some (s1, w1) =>
    let w2 := callback "sensors/weight" "12.34" w1
    let w3 := s1.reset_msg w2
    some ((s1.get_topic w3).1, (s1.get_msg w3).1)

/-- The answers to the connectivity queries among some calls, in order. -/
def connectivityQueries (evs : List Event) : List Bool :=
  evs.filterMap fun e => match e with
    | Event.connected answer => some answer
    | _ => none

/-- The number of `loop` calls among some calls. -/
def loopCalls (evs : List Event) : Nat :=
  evs.countP fun e => match e with
    | Event.mqttLoop => true
    | _ => false

/-- The publish calls among some calls, in order: topic and message. -/
def publishes (evs : List Event) : List (String × String) :=
  evs.filterMap fun e => match e with
    | Event.publish topic msg => some (topic, msg)
    | _ => none

instance {τ : Type} (self : MqttClient τ) : Decidable self.WellFormed := by
  unfold MqttClient.WellFormed
  infer_instance

instance {τ : Type} (lib : MQTTLib τ) (client_id : String) (t : τ) (k : Nat) :
    Decidable (FirstSuccessAt lib client_id t k) := by
  unfold FirstSuccessAt
  infer_instance

instance {ω : Type} (wifi : WiFiLib ω) (p : ω) (k : Nat) :
    Decidable (FirstConnectedAt wifi p k) := by
  unfold FirstConnectedAt
  infer_instance

/-! ## Concrete collaborators -/

/-- The state of a scripted MQTT library object: the answers it has yet to
give. -/
structure Script where
  connects : List Bool
  subscribes : List Bool
  connecteds : List Bool
  batches : List (List (String × String))
  deriving DecidableEq, Repr

/-- An MQTT library that answers from a script, one entry per call.  When a
list has run out the answer is `true`, and `loop` delivers nothing. -/
def scripted (s0 : Script) : MQTTLib Script where
  fresh := s0
  begin := fun s _ _ => s
  setKeepAlive := fun s _ => s
  setCleanSession := fun s _ => s
  onMessage := fun s => s
  connect := fun s _ => (s.connects.headD true, { s with connects := s.connects.tail })
  subscribe := fun s _ =>
    (s.subscribes.headD true, { s with subscribes := s.subscribes.tail })
  publish := fun s _ _ => s
  connected := fun s =>
    (s.connecteds.headD true, { s with connecteds := s.connecteds.tail })
  loop := fun s => (s.batches.headD [], { s with batches := s.batches.tail })

/-- An MQTT library whose state is whether the link is up.  The handshake
always succeeds and brings the link up; a subscribe to `refused` fails and
closes the link; nothing else changes it. -/
def closing (refused : String) : MQTTLib Bool where
  fresh := false
  begin := fun up _ _ => up
  setKeepAlive := fun up _ => up
  setCleanSession := fun up _ => up
  onMessage := fun up => up
  connect := fun _ _ => (true, true)
  subscribe := fun up topic => if topic = refused then (false, false) else (up, up)
  publish := fun up _ _ => up
  connected := fun up => (up, up)
  loop := fun up => ([], up)

/-- A WiFi platform that reports the statuses of a list, one per query, and
`WL_CONNECTED` (3) once the list has run out. -/
def scriptedWiFi : WiFiLib (List Nat) where
  WL_CONNECTED := 3
  begin := fun l _ _ => l
  status := fun l => (l.headD 3, l.tail)
  localIP := fun _ => "192.168.0.2"

/-- A scripted library: the first handshake fails, the second succeeds; of
three subscribes the second fails; the first connectivity query says no. -/
def demoLib : MQTTLib Script :=
  scripted { connects := [false, true], subscribes := [true, false, true],
             connecteds := [false], batches := [] }

/-- A session on `demoLib` with the topics "a", "b", "c", built at boot. -/
def demoSession : MqttClient Script × World :=
  MqttClient.newWithTopics demoLib "10.0.0.5" 1883 ["a", "b", "c"] 3 World.boot

/-- A scripted library that reports connected and whose next `loop` delivers
two messages. -/
def busyLib : MQTTLib Script :=
  scripted { connects := [], subscribes := [], connecteds := [true],
             batches := [[("t1", "p1"), ("t2", "p2")]] }

/-- A session on `busyLib` without topics, built at boot. -/
def busySession : MqttClient Script × World :=
  MqttClient.new busyLib "10.0.0.5" 1883 World.boot

/-- A session on `closing "b"` with the topics "a", "b", built at boot. -/
def closingSession : MqttClient Bool × World :=
  MqttClient.newWithTopics (closing "b") "10.0.0.5" 1883 ["a", "b"] 2 World.boot

/-- An MQTT library whose state is whether the link is up and how many more
handshakes it refuses.  A successful handshake brings the link up, a refused
one leaves it down, and subscribe calls succeed exactly when the link is up
and never change it. -/
def patient : MQTTLib (Bool × Nat) where
  fresh := (false, 1)
  begin := fun t _ _ => t
  setKeepAlive := fun t _ => t
  setCleanSession := fun t _ => t
  onMessage := fun t => t
  connect := fun t _ => if t.2 = 0 then (true, (true, 0)) else (false, (false, t.2 - 1))
  subscribe := fun t _ => (t.1, t)
  publish := fun t _ _ => t
  connected := fun t => (t.1, t)
  loop := fun t => ([], t)

/-- A session on `patient` with the topics "a", "b", built at boot. -/
def patientSession : MqttClient (Bool × Nat) × World :=
  MqttClient.newWithTopics patient "10.0.0.5" 1883 ["a", "b"] 2 World.boot

/-- A library object that reports disconnected. -/
def offLib : MQTTLib Script :=
  scripted { connects := [], subscribes := [], connecteds := [false], batches := [] }

/-- A session on `offLib` with one topic, built at boot. -/
def offSession : MqttClient Script × World :=
  MqttClient.newWithTopics offLib "10.0.0.5" 1883 ["a"] 1 World.boot

/-- A WiFi platform state: two observations other than `WL_CONNECTED` (6,
then 0), then `WL_CONNECTED`. -/
def demoStatuses : List Nat := [6, 0, 3]

/-! ## Lemmas on the two MQTT loops -/

/-- Unfolding `FirstSuccessAt` by one failed attempt. -/
theorem firstSuccessAt_succ {τ : Type} (lib : MQTTLib τ) (cid : String) (t : τ) (k : Nat)
    (h : FirstSuccessAt lib cid t (k + 1)) :
    (lib.connect t cid).1 = false ∧ FirstSuccessAt lib cid (lib.connect t cid).2 k := by
  obtain ⟨h1, h2⟩ := h
  refine ⟨?_, ?_, ?_⟩
  · simpa [handshakeOutcome, handshakeState] using h1 0 (Nat.succ_pos k)
  · intro i hi
    simpa [handshakeOutcome, handshakeState] using h1 (i + 1) (Nat.succ_lt_succ hi)
  · simpa [handshakeOutcome, handshakeState] using h2

/-- Unfolding `handshakeCalls` by one failed attempt. -/
theorem handshakeCalls_succ (cid : String) (k : Nat) :
    handshakeCalls cid (k + 1) =
      Event.mqttConnect cid false :: Event.delay 1000 :: handshakeCalls cid k := by
  simp [handshakeCalls, List.replicate_succ]

/-- The retry loop returns once the fuel exceeds the position of the first
successful handshake, having made exactly the calls of `handshakeCalls`. -/
theorem connectLoop_ok {τ : Type} (lib : MQTTLib τ) (cid : String) :
    ∀ (k fuel : Nat) (t : τ) (w : World), FirstSuccessAt lib cid t k → k < fuel →
      ∃ w1, connectLoop lib cid fuel t w = some (handshakeState lib cid (k + 1) t, w1) ∧
        w1.calls = w.calls ++ handshakeCalls cid k ∧ w1._msg = w._msg ∧
        w1._topic = w._topic := by
  intro k
  induction k with
  | zero =>
    intro fuel t w h hf
    obtain ⟨n, rfl⟩ : ∃ n, fuel = n + 1 := ⟨fuel - 1, by omega⟩
    have h0 : (lib.connect t cid).1 = true := by
      simpa [handshakeOutcome, handshakeState] using h.2
    refine ⟨w.call (Event.mqttConnect cid true), ?_, ?_, rfl, rfl⟩
    · simp [connectLoop, h0, handshakeState]
    · simp [World.call, handshakeCalls]
  | succ k ih =>
    intro fuel t w h hf
    obtain ⟨n, rfl⟩ : ∃ n, fuel = n + 1 := ⟨fuel - 1, by omega⟩
    obtain ⟨h0, hk⟩ := firstSuccessAt_succ lib cid t k h
    obtain ⟨w1, e1, c1, m1, t1⟩ :=
      ih n (lib.connect t cid).2
        (((w.call (Event.mqttConnect cid false)).print ".").delay 1000) hk (by omega)
    refine ⟨w1, ?_, ?_, ?_, ?_⟩
    · simp only [connectLoop, h0]
      simpa [handshakeState] using e1
    · rw [c1, handshakeCalls_succ]
      simp [World.call, World.print, World.delay]
    · rw [m1]; rfl
    · rw [t1]; rfl

/-- The subscription loop, entered at index `i` with `todo` iterations that stay
inside the array, returns after one subscribe call per topic, in order. -/
theorem subscribeLoop_ok {τ : Type} (lib : MQTTLib τ) (topics : List String) :
    ∀ (todo i : Nat) (t : τ) (w : World), i + todo ≤ topics.length →
      ∃ t1 w1 pass, subscribeLoop lib topics todo i t w = some (t1, w1) ∧
        w1.calls = w.calls ++ pass ∧
        List.Forall₂ IsSubscribeTo pass ((topics.drop i).take todo) ∧
        w1._msg = w._msg ∧ w1._topic = w._topic := by
  intro todo
  induction todo with
  | zero =>
    intro i t w _
    exact ⟨t, w, [], by simp [subscribeLoop], by simp, by simp, rfl, rfl⟩
  | succ n ih =>
    intro i t w hi
    have hlt : i < topics.length := by omega
    have hget : topics[i]? = some topics[i] := List.getElem?_eq_getElem hlt
    obtain ⟨t1, w1, pass, e1, c1, f1, m1, p1⟩ :=
      ih (i + 1) (lib.subscribe t topics[i]).2
        (if (lib.subscribe t topics[i]).1 then
          (w.call (Event.subscribe topics[i] (lib.subscribe t topics[i]).1)).println
            ("Subscribed to topic: " ++ topics[i])
         else
          (w.call (Event.subscribe topics[i] (lib.subscribe t topics[i]).1)).println
            ("Subscribe failed: " ++ topics[i])) (by omega)
    refine ⟨t1, w1, Event.subscribe topics[i] (lib.subscribe t topics[i]).1 :: pass,
      ?_, ?_, ?_, ?_, ?_⟩
    · simp only [subscribeLoop, hget]
      exact e1
    · rw [c1]
      split <;> simp [World.call, World.println]
    · rw [List.drop_eq_getElem_cons hlt, List.take_succ_cons]
      exact List.Forall₂.cons ⟨_, rfl⟩ f1
    · rw [m1]; split <;> rfl
    · rw [p1]; split <;> rfl

/-- A well-formed count stays inside the array. -/
theorem toNat_le_length {τ : Type} (self : MqttClient τ) (h : self.WellFormed) :
    0 + self._num_subscribe_topics.toNat ≤ self._subscribe_topics.length := by
  unfold MqttClient.WellFormed at h
  omega

/-- The shape of a terminating `connect`: for a well-formed session whose
first successful handshake is attempt `k`, any fuel above `k` suffices, the
new calls are one connect sequence and `_msg`, `_topic` are untouched. -/
theorem connect_ok {τ : Type} (lib : MQTTLib τ) (self : MqttClient τ) (cid : String)
    (w : World) (k fuel : Nat) (hwf : self.WellFormed)
    (hk : FirstSuccessAt lib cid self._mqtt_client k) (hf : k < fuel) :
    ∃ self1 w1 evs, MqttClient.connect lib fuel self cid w = some (self1, w1) ∧
      w1.calls = w.calls ++ evs ∧ IsConnectSequence cid k self.topicList evs ∧
      w1._msg = w._msg ∧ w1._topic = w._topic ∧
      self1._subscribe_topics = self._subscribe_topics ∧
      self1._num_subscribe_topics = self._num_subscribe_topics := by
  obtain ⟨w1, e1, c1, m1, p1⟩ :=
    connectLoop_ok lib cid k fuel self._mqtt_client
      (w.print "Connecting to MQTT broker... ") hk hf
  obtain ⟨t2, w2, pass, e2, c2, f2, m2, p2⟩ :=
    subscribeLoop_ok lib self._subscribe_topics self._num_subscribe_topics.toNat 0
      (handshakeState lib cid (k + 1) self._mqtt_client) (w1.println "done!")
      (toNat_le_length self hwf)
  refine ⟨{ self with _mqtt_client := t2 }, w2, handshakeCalls cid k ++ pass,
    ?_, ?_, ⟨pass, rfl, ?_⟩, ?_, ?_, rfl, rfl⟩
  · simp only [MqttClient.connect, e1, e2]
  · rw [c2]
    simp [World.println, c1, World.print]
  · simpa [MqttClient.topicList] using f2
  · rw [m2]; simp [World.println, m1, World.print]
  · rw [p2]; simp [World.println, p1, World.print]

/-- The retry loop does not return on fewer attempts than the first success
needs. -/
theorem connectLoop_none {τ : Type} (lib : MQTTLib τ) (cid : String) :
    ∀ (fuel k : Nat) (t : τ) (w : World), FirstSuccessAt lib cid t k → fuel ≤ k →
      connectLoop lib cid fuel t w = none := by
  intro fuel
  induction fuel with
  | zero => intro k t w _ _; rfl
  | succ n ih =>
    intro k t w h hf
    obtain ⟨j, rfl⟩ : ∃ j, k = j + 1 := ⟨k - 1, by omega⟩
    obtain ⟨h0, hk⟩ := firstSuccessAt_succ lib cid t j h
    simp only [connectLoop, h0]
    exact ih j _ _ hk (by omega)

/-- The method `connect` does not return on fewer attempts than the first success
needs. -/
theorem connect_none {τ : Type} (lib : MQTTLib τ) (self : MqttClient τ) (cid : String)
    (w : World) (k fuel : Nat) (hk : FirstSuccessAt lib cid self._mqtt_client k)
    (hf : fuel ≤ k) : MqttClient.connect lib fuel self cid w = none := by
  simp [MqttClient.connect, connectLoop_none lib cid fuel k _ _ hk hf]

/-- A retry loop that returns has ended on a successful handshake. -/
theorem connectLoop_some {τ : Type} (lib : MQTTLib τ) (cid : String) :
    ∀ (fuel : Nat) (t : τ) (w : World) (r : τ × World),
      connectLoop lib cid fuel t w = some r →
      ∃ t0, (lib.connect t0 cid).1 = true ∧ r.1 = (lib.connect t0 cid).2 := by
  intro fuel
  induction fuel with
  | zero => intro t w r h; simp [connectLoop] at h
  | succ n ih =>
    intro t w r h
    by_cases h0 : (lib.connect t cid).1 = true
    · simp only [connectLoop, h0, if_true, Option.some.injEq] at h
      exact ⟨t, h0, by rw [← h]⟩
    · simp only [connectLoop, h0, Bool.false_eq_true, if_false] at h
      exact ih _ _ r h

/-- On a library that stays connected across subscribe calls, the subscription
loop keeps a connected library object connected. -/
theorem subscribeLoop_keeps_link {τ : Type} (lib : MQTTLib τ) (topics : List String)
    (hsub : ∀ (t : τ) (topic : String), (lib.connected t).1 = true →
      (lib.connected (lib.subscribe t topic).2).1 = true) :
    ∀ (todo i : Nat) (t : τ) (w : World) (r : τ × World),
      (lib.connected t).1 = true → subscribeLoop lib topics todo i t w = some r →
      (lib.connected r.1).1 = true := by
  intro todo
  induction todo with
  | zero =>
    intro i t w r hc h
    simp only [subscribeLoop, Option.some.injEq] at h
    rw [← h]; exact hc
  | succ n ih =>
    intro i t w r hc h
    cases hget : topics[i]? with
    | none => simp [subscribeLoop, hget] at h
    | some topic =>
      simp only [subscribeLoop, hget] at h
      exact ih _ _ _ r (hsub t topic hc) h

/-- On a library that is connected after every successful handshake and
stays connected across subscribe calls, a `connect` that returns leaves the
library object connected. -/
theorem connect_keeps_link {τ : Type} (lib : MQTTLib τ)
    (hconn : ∀ (t : τ) (c : String), (lib.connect t c).1 = true →
      (lib.connected (lib.connect t c).2).1 = true)
    (hsub : ∀ (t : τ) (topic : String), (lib.connected t).1 = true →
      (lib.connected (lib.subscribe t topic).2).1 = true)
    (fuel : Nat) (self : MqttClient τ) (cid : String) (w : World)
    (r : MqttClient τ × World) (h : MqttClient.connect lib fuel self cid w = some r) :
    (lib.connected r.1._mqtt_client).1 = true := by
  unfold MqttClient.connect at h
  cases h1 : connectLoop lib cid fuel self._mqtt_client
      (w.print "Connecting to MQTT broker... ") with
  | none => simp [h1] at h
  | some r1 =>
    obtain ⟨t0, ht0, hr1⟩ := connectLoop_some lib cid fuel _ _ r1 h1
    cases h2 : subscribeLoop lib self._subscribe_topics self._num_subscribe_topics.toNat 0
        r1.1 (r1.2.println "done!") with
    | none => simp [h1, h2] at h
    | some r2 =>
      have hc : (lib.connected r1.1).1 = true := by rw [hr1]; exact hconn t0 cid ht0
      have := subscribeLoop_keeps_link lib _ hsub _ _ _ _ r2 hc h2
      simp only [h1, h2, Option.some.injEq] at h
      rw [← h]; exact this

/-! ## Lemmas on the projections of a call list -/

/-- The handshake attempts of a retry loop: `k` failures, then one success. -/
theorem handshakes_handshakeCalls (cid : String) (k : Nat) :
    handshakes (handshakeCalls cid k) = List.replicate k (cid, false) ++ [(cid, true)] := by
  induction k with
  | zero => rfl
  | succ k ih =>
    rw [handshakeCalls_succ, List.replicate_succ]
    simpa [handshakes] using ih

/-- The waits of a retry loop: `k` times 1000 ms. -/
theorem waits_handshakeCalls (cid : String) (k : Nat) :
    waits (handshakeCalls cid k) = List.replicate k 1000 := by
  induction k with
  | zero => rfl
  | succ k ih =>
    rw [handshakeCalls_succ, List.replicate_succ]
    simpa [waits] using ih

/-- A retry loop makes no subscribe call. -/
theorem subscribedTopics_handshakeCalls (cid : String) (k : Nat) :
    subscribedTopics (handshakeCalls cid k) = [] := by
  induction k with
  | zero => rfl
  | succ k ih =>
    rw [handshakeCalls_succ]
    simpa [subscribedTopics] using ih

/-- A subscription pass consists of subscribe calls only, one per topic. -/
theorem projections_of_pass (pass : List Event) (topics : List String)
    (h : List.Forall₂ IsSubscribeTo pass topics) :
    subscribedTopics pass = topics ∧ handshakes pass = [] ∧ waits pass = [] := by
  induction h with
  | nil => exact ⟨rfl, rfl, rfl⟩
  | cons hd _ ih =>
    obtain ⟨ok, rfl⟩ := hd
    obtain ⟨i1, i2, i3⟩ := ih
    refine ⟨?_, ?_, ?_⟩
    · simpa [subscribedTopics] using i1
    · simpa [handshakes] using i2
    · simpa [waits] using i3

/-- The handshakes, waits and subscribed topics of one connect sequence. -/
theorem projections_of_connectSequence (cid : String) (k : Nat) (topics : List String)
    (evs : List Event) (h : IsConnectSequence cid k topics evs) :
    handshakes evs = List.replicate k (cid, false) ++ [(cid, true)] ∧
      waits evs = List.replicate k 1000 ∧ subscribedTopics evs = topics := by
  obtain ⟨pass, rfl, hp⟩ := h
  obtain ⟨i1, i2, i3⟩ := projections_of_pass pass topics hp
  refine ⟨?_, ?_, ?_⟩
  · have := handshakes_handshakeCalls cid k
    unfold handshakes at this i2 ⊢
    rw [List.filterMap_append, this, i2, List.append_nil]
  · have := waits_handshakeCalls cid k
    unfold waits at this i3 ⊢
    rw [List.filterMap_append, this, i3, List.append_nil]
  · have := subscribedTopics_handshakeCalls cid k
    unfold subscribedTopics at this i1 ⊢
    rw [List.filterMap_append, this, i1, List.nil_append]

/-- A connect sequence contains no connectivity query. -/
theorem connectivityQueries_of_connectSequence (cid : String) (k : Nat)
    (topics : List String) (evs : List Event) (h : IsConnectSequence cid k topics evs) :
    connectivityQueries evs = [] := by
  obtain ⟨pass, rfl, hp⟩ := h
  have h1 : connectivityQueries (handshakeCalls cid k) = [] := by
    induction k with
    | zero => rfl
    | succ k ih =>
      rw [handshakeCalls_succ]
      simpa [connectivityQueries] using ih
  have h2 : connectivityQueries pass = [] := by
    induction hp with
    | nil => rfl
    | cons hd _ ih =>
      obtain ⟨ok, rfl⟩ := hd
      simpa [connectivityQueries] using ih
  unfold connectivityQueries at h1 h2 ⊢
  rw [List.filterMap_append, h1, h2, List.append_nil]

/-! ## Lemmas on deliveries -/

/-- Deliveries make no call and print nothing. -/
theorem deliver_calls (ds : List (String × String)) :
    ∀ w : World, (deliver ds w).calls = w.calls ∧ (deliver ds w).serial = w.serial := by
  induction ds with
  | nil => intro w; exact ⟨rfl, rfl⟩
  | cons d ds ih =>
    intro w
    have := ih (callback d.1 d.2 w)
    simpa [deliver, callback] using this

/-- A batch of deliveries leaves the state of its last message alone. -/
theorem deliver_snoc (ds : List (String × String)) (T P : String) (w : World) :
    deliver (ds ++ [(T, P)]) w = callback T P w := by
  obtain ⟨c, s⟩ := deliver_calls ds w
  have e : deliver (ds ++ [(T, P)]) w = callback T P (deliver ds w) := by
    simp [deliver, List.foldl_append]
  rw [e]
  unfold callback
  rw [World.mk.injEq]
  exact ⟨rfl, rfl, c, s⟩

/-! ## Lemmas on the WiFi status loop -/

/-- Unfolding `FirstConnectedAt` by one observation other than connected. -/
theorem firstConnectedAt_succ {ω : Type} (wifi : WiFiLib ω) (p : ω) (k : Nat)
    (h : FirstConnectedAt wifi p (k + 1)) :
    (wifi.status p).1 ≠ wifi.WL_CONNECTED ∧ FirstConnectedAt wifi (wifi.status p).2 k := by
  obtain ⟨h1, h2⟩ := h
  refine ⟨?_, ?_, ?_⟩
  · simpa [statusAt, statusState] using h1 0 (Nat.succ_pos k)
  · intro i hi
    simpa [statusAt, statusState] using h1 (i + 1) (Nat.succ_lt_succ hi)
  · simpa [statusAt, statusState] using h2

/-- The status loop returns once the fuel exceeds the position of the first
observation of `WL_CONNECTED`, having made exactly the calls of `pollCalls`. -/
theorem statusLoop_ok {ω : Type} (wifi : WiFiLib ω) :
    ∀ (k fuel : Nat) (p : ω) (w : World), FirstConnectedAt wifi p k → k < fuel →
      ∃ w1, statusLoop wifi fuel p w = some (statusState wifi (k + 1) p, w1) ∧
        w1.calls = w.calls ++ pollCalls wifi k p ∧ w1._msg = w._msg ∧
        w1._topic = w._topic := by
  intro k
  induction k with
  | zero =>
    intro fuel p w h hf
    obtain ⟨n, rfl⟩ : ∃ n, fuel = n + 1 := ⟨fuel - 1, by omega⟩
    have h0 : (wifi.status p).1 = wifi.WL_CONNECTED := by
      simpa [statusAt, statusState] using h.2
    refine ⟨w.call (Event.wifiStatus wifi.WL_CONNECTED), ?_, ?_, rfl, rfl⟩
    · simp [statusLoop, h0, statusState]
    · simp [World.call, pollCalls]
  | succ k ih =>
    intro fuel p w h hf
    obtain ⟨n, rfl⟩ : ∃ n, fuel = n + 1 := ⟨fuel - 1, by omega⟩
    obtain ⟨h0, hk⟩ := firstConnectedAt_succ wifi p k h
    obtain ⟨w1, e1, c1, m1, t1⟩ :=
      ih n (wifi.status p).2
        (((w.call (Event.wifiStatus (wifi.status p).1)).delay 500).print ".") hk (by omega)
    refine ⟨w1, ?_, ?_, ?_, ?_⟩
    · simp only [statusLoop, bne_iff_ne, ne_eq, h0, not_false_eq_true, if_true]
      simpa [statusState] using e1
    · rw [c1]
      simp [World.call, World.print, World.delay, pollCalls]
    · rw [m1]; rfl
    · rw [t1]; rfl

/-- The status loop does not return on fewer queries than the first observation
of `WL_CONNECTED` needs. -/
theorem statusLoop_none {ω : Type} (wifi : WiFiLib ω) :
    ∀ (fuel k : Nat) (p : ω) (w : World), FirstConnectedAt wifi p k → fuel ≤ k →
      statusLoop wifi fuel p w = none := by
  intro fuel
  induction fuel with
  | zero => intro k p w _ _; rfl
  | succ n ih =>
    intro k p w h hf
    obtain ⟨j, rfl⟩ : ∃ j, k = j + 1 := ⟨k - 1, by omega⟩
    obtain ⟨h0, hk⟩ := firstConnectedAt_succ wifi p j h
    simp only [statusLoop, bne_iff_ne, ne_eq, h0, not_false_eq_true, if_true]
    exact ih j _ _ hk (by omega)

/-- Folding `FirstConnectedAt` by one observation other than connected. -/
theorem firstConnectedAt_step {ω : Type} (wifi : WiFiLib ω) (p : ω) (j : Nat)
    (h0 : (wifi.status p).1 ≠ wifi.WL_CONNECTED)
    (hj : FirstConnectedAt wifi (wifi.status p).2 j) : FirstConnectedAt wifi p (j + 1) := by
  obtain ⟨h1, h2⟩ := hj
  refine ⟨fun i hi => ?_, ?_⟩
  · cases i with
    | zero => simpa [statusAt, statusState] using h0
    | succ i =>
      have := h1 i (by omega)
      simpa [statusAt, statusState] using this
  · simpa [statusAt, statusState] using h2

/-- A status loop that returns has observed `WL_CONNECTED`. -/
theorem statusLoop_some {ω : Type} (wifi : WiFiLib ω) :
    ∀ (fuel : Nat) (p : ω) (w : World) (r : ω × World),
      statusLoop wifi fuel p w = some r → ∃ j, j < fuel ∧ FirstConnectedAt wifi p j := by
  intro fuel
  induction fuel with
  | zero => intro p w r h; simp [statusLoop] at h
  | succ n ih =>
    intro p w r h
    by_cases h0 : (wifi.status p).1 = wifi.WL_CONNECTED
    · refine ⟨0, Nat.succ_pos n, fun i hi => absurd hi (Nat.not_lt_zero i), ?_⟩
      simpa [statusAt, statusState] using h0
    · simp only [statusLoop, bne_iff_ne, ne_eq, h0, not_false_eq_true, if_true] at h
      obtain ⟨j, hj, hfirst⟩ := ih _ _ r h
      exact ⟨j + 1, Nat.succ_lt_succ hj, firstConnectedAt_step wifi p j h0 hfirst⟩

/-- The status queries, waits and last call of a status loop. -/
theorem projections_of_pollCalls {ω : Type} (wifi : WiFiLib ω) :
    ∀ (k : Nat) (p : ω), statusQueries (pollCalls wifi k p) = k + 1 ∧
      waits (pollCalls wifi k p) = List.replicate k 500 ∧
      associations (pollCalls wifi k p) = [] ∧
      (pollCalls wifi k p).getLast? = some (Event.wifiStatus wifi.WL_CONNECTED) := by
  intro k
  induction k with
  | zero => intro p; exact ⟨rfl, rfl, rfl, rfl⟩
  | succ k ih =>
    intro p
    obtain ⟨i1, i2, i3, i4⟩ := ih (wifi.status p).2
    refine ⟨?_, ?_, ?_, ?_⟩
    · simpa [pollCalls, statusQueries] using i1
    · simpa [pollCalls, waits, List.replicate_succ] using i2
    · simpa [pollCalls, associations] using i3
    · cases hpc : pollCalls wifi k (wifi.status p).2 with
      | nil => simp [hpc] at i4
      | cons e es =>
        rw [hpc] at i4
        simpa [pollCalls, hpc, List.getLast?_cons_cons] using i4

/-! ## The claims -/

/-- C1: once the handshake of `connect` has succeeded, a session with
subscription list `L` issues exactly `len(L)` subscribe calls, the i-th one
carrying the i-th topic, whatever the outcome of each call; the constructor
without a list gives the empty `L`, the one with a list gives that list. -/
theorem connect_subscribes_whole_list {τ : Type} (lib : MQTTLib τ) (self : MqttClient τ)
    (cid : String) (w : World) (k fuel : Nat) (hwf : self.WellFormed)
    (hk : FirstSuccessAt lib cid self._mqtt_client k) (hf : k < fuel) :
    (∃ self1 w1 pass, MqttClient.connect lib fuel self cid w = some (self1, w1) ∧
      w1.calls = w.calls ++ handshakeCalls cid k ++ pass ∧
      List.Forall₂ IsSubscribeTo pass self.topicList ∧
      pass.length = self.topicList.length ∧
      subscribedTopics (handshakeCalls cid k ++ pass) = self.topicList) ∧
    (∀ (ip : String) (port : Int) (w0 : World),
      (MqttClient.new lib ip port w0).1.WellFormed ∧
      (MqttClient.new lib ip port w0).1.topicList = []) ∧
    (∀ (ip : String) (port : Int) (L : List String) (w0 : World),
      (MqttClient.newWithTopics lib ip port L L.length w0).1.WellFormed ∧
      (MqttClient.newWithTopics lib ip port L L.length w0).1.topicList = L) := by
  refine ⟨?_, ?_, ?_⟩
  · obtain ⟨self1, w1, evs, e, c, ⟨pass, rfl, f⟩, _⟩ :=
      connect_ok lib self cid w k fuel hwf hk hf
    refine ⟨self1, w1, pass, e, ?_, f, f.length_eq, ?_⟩
    · rw [c, List.append_assoc]
    · exact (projections_of_connectSequence cid k _ _ ⟨pass, rfl, f⟩).2.2
  · intro ip port w0
    exact ⟨by simp [MqttClient.WellFormed, MqttClient.new],
      by simp [MqttClient.topicList, MqttClient.new]⟩
  · intro ip port L w0
    exact ⟨by simp [MqttClient.WellFormed, MqttClient.newWithTopics],
      by simp [MqttClient.topicList, MqttClient.newWithTopics]⟩

/-- An instance on `demoSession`: the second handshake succeeds and the second
of three subscribes fails. -/
theorem connect_subscribes_whole_list_witness :
    demoSession.1.WellFormed ∧
    FirstSuccessAt demoLib "cell1" demoSession.1._mqtt_client 1 ∧ 1 < 2 ∧
    ((∃ self1 w1 pass,
        MqttClient.connect demoLib 2 demoSession.1 "cell1" demoSession.2 = some (self1, w1) ∧
        w1.calls = demoSession.2.calls ++ handshakeCalls "cell1" 1 ++ pass ∧
        List.Forall₂ IsSubscribeTo pass demoSession.1.topicList ∧
        pass.length = demoSession.1.topicList.length ∧
        subscribedTopics (handshakeCalls "cell1" 1 ++ pass) = demoSession.1.topicList) ∧
      (∀ (ip : String) (port : Int) (w0 : World),
        (MqttClient.new demoLib ip port w0).1.WellFormed ∧
        (MqttClient.new demoLib ip port w0).1.topicList = []) ∧
      (∀ (ip : String) (port : Int) (L : List String) (w0 : World),
        (MqttClient.newWithTopics demoLib ip port L L.length w0).1.WellFormed ∧
        (MqttClient.newWithTopics demoLib ip port L L.length w0).1.topicList = L)) :=
  ⟨by decide, by decide, by decide,
    connect_subscribes_whole_list demoLib demoSession.1 "cell1" demoSession.2 1 2
      (by decide) (by decide) (by decide)⟩

/-- C7: `connect` retries the handshake until it succeeds.  When the first
success is attempt `k` (0-based), `connect` returns after exactly `k + 1`
attempts, all with the given client id, with exactly `k` waits of 1000 ms, one
after each failed attempt, and no subscribe call before the successful
attempt; with fewer than `k + 1` attempts allowed it does not return. -/
theorem connect_retries_until_success {τ : Type} (lib : MQTTLib τ) (self : MqttClient τ)
    (cid : String) (w : World) (k fuel : Nat) (hwf : self.WellFormed)
    (hk : FirstSuccessAt lib cid self._mqtt_client k) (hf : k < fuel) :
    (∃ self1 w1 pass, MqttClient.connect lib fuel self cid w = some (self1, w1) ∧
      w1.calls = w.calls ++
        ((List.replicate k [Event.mqttConnect cid false, Event.delay 1000]).flatten ++
          [Event.mqttConnect cid true]) ++ pass ∧
      List.Forall₂ IsSubscribeTo pass self.topicList ∧
      handshakes (w1.calls.drop w.calls.length) =
        List.replicate k (cid, false) ++ [(cid, true)] ∧
      (handshakes (w1.calls.drop w.calls.length)).length = k + 1 ∧
      waits (w1.calls.drop w.calls.length) = List.replicate k 1000) ∧
    (∀ n, n ≤ k → MqttClient.connect lib n self cid w = none) := by
  refine ⟨?_, fun n hn => connect_none lib self cid w k n hk hn⟩
  obtain ⟨self1, w1, evs, e, c, hseq, _⟩ := connect_ok lib self cid w k fuel hwf hk hf
  obtain ⟨p1, p2, _⟩ := projections_of_connectSequence cid k _ _ hseq
  obtain ⟨pass, rfl, f⟩ := hseq
  have hd : w1.calls.drop w.calls.length = handshakeCalls cid k ++ pass := by
    rw [c, List.drop_left]
  refine ⟨self1, w1, pass, e, ?_, f, ?_, ?_, ?_⟩
  · rw [c, List.append_assoc]; rfl
  · rw [hd, p1]
  · rw [hd, p1]; simp
  · rw [hd, p2]

/-- An instance on `demoSession`: one failed handshake, one wait, one success. -/
theorem connect_retries_until_success_witness :
    demoSession.1.WellFormed ∧
    FirstSuccessAt demoLib "cell1" demoSession.1._mqtt_client 1 ∧ 1 < 2 ∧
    ((∃ self1 w1 pass,
        MqttClient.connect demoLib 2 demoSession.1 "cell1" demoSession.2 = some (self1, w1) ∧
        w1.calls = demoSession.2.calls ++
          ((List.replicate 1 [Event.mqttConnect "cell1" false, Event.delay 1000]).flatten ++
            [Event.mqttConnect "cell1" true]) ++ pass ∧
        List.Forall₂ IsSubscribeTo pass demoSession.1.topicList ∧
        handshakes (w1.calls.drop demoSession.2.calls.length) =
          List.replicate 1 ("cell1", false) ++ [("cell1", true)] ∧
        (handshakes (w1.calls.drop demoSession.2.calls.length)).length = 1 + 1 ∧
        waits (w1.calls.drop demoSession.2.calls.length) = List.replicate 1 1000) ∧
      (∀ n, n ≤ 1 → MqttClient.connect demoLib n demoSession.1 "cell1" demoSession.2 = none)) :=
  ⟨by decide, by decide, by decide,
    connect_retries_until_success demoLib demoSession.1 "cell1" demoSession.2 1 2
      (by decide) (by decide) (by decide)⟩

/-- C5: `check_connection` called while the connectivity query reports
connected services the transport loop exactly once, makes no handshake
attempt and no subscribe call, and returns whatever the fuel. -/
theorem check_connection_connected {τ : Type} (lib : MQTTLib τ) (self : MqttClient τ)
    (cid : String) (w : World) (fuel : Nat)
    (hc : (lib.connected (lib.loop self._mqtt_client).2).1 = true) :
    ∃ self1 w1, MqttClient.check_connection lib fuel self cid w = some (self1, w1) ∧
      w1.calls = w.calls ++ [Event.mqttLoop, Event.connected true] ∧
      loopCalls (w1.calls.drop w.calls.length) = 1 ∧
      handshakes (w1.calls.drop w.calls.length) = [] ∧
      subscribedTopics (w1.calls.drop w.calls.length) = [] ∧
      self1._subscribe_topics = self._subscribe_topics ∧
      self1._num_subscribe_topics = self._num_subscribe_topics := by
  have hcalls :
      ((deliver (lib.loop self._mqtt_client).1 (w.call Event.mqttLoop)).call
        (Event.connected true)).calls = w.calls ++ [Event.mqttLoop, Event.connected true] := by
    simp [World.call, (deliver_calls _ _).1]
  refine ⟨{ self with _mqtt_client := (lib.connected (lib.loop self._mqtt_client).2).2 },
    (deliver (lib.loop self._mqtt_client).1 (w.call Event.mqttLoop)).call
      (Event.connected true), ?_, hcalls, ?_, ?_, ?_, rfl, rfl⟩
  · simp [MqttClient.check_connection, hc]
  · rw [hcalls, List.drop_left]; rfl
  · rw [hcalls, List.drop_left]; rfl
  · rw [hcalls, List.drop_left]; rfl

/-- An instance on `busySession`, with no fuel at all. -/
theorem check_connection_connected_witness :
    (busyLib.connected (busyLib.loop busySession.1._mqtt_client).2).1 = true ∧
    ∃ self1 w1,
      MqttClient.check_connection busyLib 0 busySession.1 "cell1" busySession.2 =
        some (self1, w1) ∧
      w1.calls = busySession.2.calls ++ [Event.mqttLoop, Event.connected true] ∧
      loopCalls (w1.calls.drop busySession.2.calls.length) = 1 ∧
      handshakes (w1.calls.drop busySession.2.calls.length) = [] ∧
      subscribedTopics (w1.calls.drop busySession.2.calls.length) = [] ∧
      self1._subscribe_topics = busySession.1._subscribe_topics ∧
      self1._num_subscribe_topics = busySession.1._num_subscribe_topics :=
  ⟨by decide,
    check_connection_connected busyLib busySession.1 "cell1" busySession.2 0 (by decide)⟩

/-- C6, as amended: `check_connection` called while the connectivity query
reports disconnected triggers exactly one connect sequence with the same
client id: the handshake retry loop, whose last attempt reports success,
followed by one full pass of `len(L)` subscribe calls in list order.  It then
returns without asking the transport for its connectivity again; the query
reports connected afterwards on every transport that is connected after a
successful handshake and stays connected across subscribe calls. -/
theorem check_connection_reconnects {τ : Type} (lib : MQTTLib τ) (self : MqttClient τ)
    (cid : String) (w : World) (k fuel : Nat) (hwf : self.WellFormed)
    (hd : (lib.connected (lib.loop self._mqtt_client).2).1 = false)
    (hk : FirstSuccessAt lib cid (lib.connected (lib.loop self._mqtt_client).2).2 k)
    (hf : k < fuel) :
    (∃ self1 w1 pass, MqttClient.check_connection lib fuel self cid w = some (self1, w1) ∧
      w1.calls = w.calls ++ [Event.mqttLoop, Event.connected false] ++
        handshakeCalls cid k ++ pass ∧
      List.Forall₂ IsSubscribeTo pass self.topicList ∧
      handshakes (w1.calls.drop w.calls.length) =
        List.replicate k (cid, false) ++ [(cid, true)] ∧
      subscribedTopics (w1.calls.drop w.calls.length) = self.topicList ∧
      connectivityQueries (w1.calls.drop w.calls.length) = [false]) ∧
    ((∀ (t : τ) (c : String), (lib.connect t c).1 = true →
        (lib.connected (lib.connect t c).2).1 = true) →
      (∀ (t : τ) (topic : String), (lib.connected t).1 = true →
        (lib.connected (lib.subscribe t topic).2).1 = true) →
      ∃ r, MqttClient.check_connection lib fuel self cid w = some r ∧
        (lib.connected r.1._mqtt_client).1 = true) := by
  obtain ⟨self1, w1, evs, e, c, hseq, _⟩ :=
    connect_ok lib { self with _mqtt_client := (lib.connected (lib.loop self._mqtt_client).2).2 }
      cid
      (((deliver (lib.loop self._mqtt_client).1 (w.call Event.mqttLoop)).call
        (Event.connected false)).println "MQTT disconnected, reconnecting...")
      k fuel hwf hk hf
  have hrun : MqttClient.check_connection lib fuel self cid w = some (self1, w1) := by
    simp only [MqttClient.check_connection, hd]
    exact e
  obtain ⟨p1, _, p3⟩ := projections_of_connectSequence cid k _ _ hseq
  have p4 := connectivityQueries_of_connectSequence cid k _ _ hseq
  obtain ⟨pass, rfl, f⟩ := hseq
  have hcalls : w1.calls = w.calls ++
      ([Event.mqttLoop, Event.connected false] ++ (handshakeCalls cid k ++ pass)) := by
    rw [c]
    simp [World.call, World.println, (deliver_calls _ _).1]
  refine ⟨⟨self1, w1, pass, hrun, ?_, f, ?_, ?_, ?_⟩, fun hconn hsub => ?_⟩
  · rw [hcalls]; simp
  · rw [hcalls, List.drop_left]
    unfold handshakes at p1 ⊢
    rw [List.filterMap_append, p1]; rfl
  · rw [hcalls, List.drop_left]
    unfold subscribedTopics at p3 ⊢
    rw [List.filterMap_append, p3]; rfl
  · rw [hcalls, List.drop_left]
    unfold connectivityQueries at p4 ⊢
    rw [List.filterMap_append, p4]; rfl
  · exact ⟨(self1, w1), hrun, connect_keeps_link lib hconn hsub fuel _ cid _ (self1, w1) e⟩

/-- An instance on `patientSession`: the link is down, the first handshake is
refused, the second succeeds. -/
theorem check_connection_reconnects_witness :
    patientSession.1.WellFormed ∧
    (patient.connected (patient.loop patientSession.1._mqtt_client).2).1 = false ∧
    FirstSuccessAt patient "cell1"
      (patient.connected (patient.loop patientSession.1._mqtt_client).2).2 1 ∧ 1 < 2 ∧
    (∃ self1 w1 pass,
      MqttClient.check_connection patient 2 patientSession.1 "cell1" patientSession.2 =
        some (self1, w1) ∧
      w1.calls = patientSession.2.calls ++ [Event.mqttLoop, Event.connected false] ++
        handshakeCalls "cell1" 1 ++ pass ∧
      List.Forall₂ IsSubscribeTo pass patientSession.1.topicList ∧
      handshakes (w1.calls.drop patientSession.2.calls.length) =
        List.replicate 1 ("cell1", false) ++ [("cell1", true)] ∧
      subscribedTopics (w1.calls.drop patientSession.2.calls.length) =
        patientSession.1.topicList ∧
      connectivityQueries (w1.calls.drop patientSession.2.calls.length) = [false]) ∧
    (∃ r, MqttClient.check_connection patient 2 patientSession.1 "cell1" patientSession.2 =
        some r ∧
      (patient.connected r.1._mqtt_client).1 = true) :=
  ⟨by decide, by decide, by decide, by decide,
    (check_connection_reconnects patient patientSession.1 "cell1" patientSession.2 1 2
      (by decide) (by decide) (by decide) (by decide)).1,
    (check_connection_reconnects patient patientSession.1 "cell1" patientSession.2 1 2
      (by decide) (by decide) (by decide) (by decide)).2
      (fun t c h => by
        by_cases h0 : t.2 = 0
        · simp [patient, h0]
        · simp [patient, h0] at h)
      (fun t topic h => by simpa [patient] using h)⟩

/-- C6, the claim as written fails: on a transport that closes the link when
a subscribe is refused, `check_connection` is called while disconnected, runs
its one connect sequence (the handshake succeeds at once, the subscribe to
"b" is refused) and returns, and the connectivity query then reports
disconnected. -/
theorem check_connection_may_end_disconnected :
    closingSession.1.WellFormed ∧
    ((closing "b").connected ((closing "b").loop closingSession.1._mqtt_client).2).1 = false ∧
    FirstSuccessAt (closing "b") "cell1"
      ((closing "b").connected ((closing "b").loop closingSession.1._mqtt_client).2).2 0 ∧
    (MqttClient.check_connection (closing "b") 1 closingSession.1 "cell1"
        closingSession.2).map
      (fun r => (r.2.calls.drop closingSession.2.calls.length,
        ((closing "b").connected r.1._mqtt_client).1)) =
      some ([Event.mqttLoop, Event.connected false, Event.mqttConnect "cell1" true,
        Event.subscribe "a" true, Event.subscribe "b" false], false) := by
  decide

/-- C2: `publish_message` is a no-op when the connectivity query reports
disconnected: that query is the only call made, and the subscription list,
`_msg`, `_topic` and the serial output are unchanged.  When the query reports
connected it makes exactly one publish call, with the given topic and
message. -/
theorem publish_message_guarded {τ : Type} (lib : MQTTLib τ) (self : MqttClient τ)
    (topic msg : String) (w : World) :
    ((lib.connected self._mqtt_client).1 = false →
      (self.publish_message lib topic msg w).2.calls = w.calls ++ [Event.connected false] ∧
      (self.publish_message lib topic msg w).2._msg = w._msg ∧
      (self.publish_message lib topic msg w).2._topic = w._topic ∧
      (self.publish_message lib topic msg w).2.serial = w.serial ∧
      (self.publish_message lib topic msg w).1._subscribe_topics = self._subscribe_topics ∧
      (self.publish_message lib topic msg w).1._num_subscribe_topics =
        self._num_subscribe_topics ∧
      (self.publish_message lib topic msg w).1._mqtt_client =
        (lib.connected self._mqtt_client).2) ∧
    ((lib.connected self._mqtt_client).1 = true →
      (self.publish_message lib topic msg w).2.calls =
        w.calls ++ [Event.connected true, Event.publish topic msg] ∧
      publishes ((self.publish_message lib topic msg w).2.calls.drop w.calls.length) =
        [(topic, msg)] ∧
      (self.publish_message lib topic msg w).1._mqtt_client =
        lib.publish (lib.connected self._mqtt_client).2 topic msg) := by
  refine ⟨fun h => ?_, fun h => ?_⟩
  · simp [MqttClient.publish_message, h, World.call]
  · have hc : (self.publish_message lib topic msg w).2.calls =
        w.calls ++ [Event.connected true, Event.publish topic msg] := by
      simp [MqttClient.publish_message, h, World.call, World.println]
    refine ⟨hc, ?_, ?_⟩
    · rw [hc, List.drop_left]; rfl
    · simp [MqttClient.publish_message, h]

/-- Two instances: `offSession` is disconnected, `busySession` is connected. -/
theorem publish_message_guarded_witness :
    ((offLib.connected offSession.1._mqtt_client).1 = false ∧
      (offSession.1.publish_message offLib "t" "m" offSession.2).2.calls =
        offSession.2.calls ++ [Event.connected false] ∧
      (offSession.1.publish_message offLib "t" "m" offSession.2).2._msg = offSession.2._msg ∧
      (offSession.1.publish_message offLib "t" "m" offSession.2).2._topic =
        offSession.2._topic ∧
      (offSession.1.publish_message offLib "t" "m" offSession.2).2.serial =
        offSession.2.serial ∧
      (offSession.1.publish_message offLib "t" "m" offSession.2).1._subscribe_topics =
        offSession.1._subscribe_topics ∧
      (offSession.1.publish_message offLib "t" "m" offSession.2).1._num_subscribe_topics =
        offSession.1._num_subscribe_topics ∧
      (offSession.1.publish_message offLib "t" "m" offSession.2).1._mqtt_client =
        (offLib.connected offSession.1._mqtt_client).2) ∧
    ((busyLib.connected busySession.1._mqtt_client).1 = true ∧
      (busySession.1.publish_message busyLib "t" "m" busySession.2).2.calls =
        busySession.2.calls ++ [Event.connected true, Event.publish "t" "m"] ∧
      publishes ((busySession.1.publish_message busyLib "t" "m" busySession.2).2.calls.drop
        busySession.2.calls.length) = [("t", "m")] ∧
      (busySession.1.publish_message busyLib "t" "m" busySession.2).1._mqtt_client =
        busyLib.publish (busyLib.connected busySession.1._mqtt_client).2 "t" "m") :=
  ⟨⟨by decide,
      (publish_message_guarded offLib offSession.1 "t" "m" offSession.2).1 (by decide)⟩,
    ⟨by decide,
      (publish_message_guarded busyLib busySession.1 "t" "m" busySession.2).2 (by decide)⟩⟩

/-- C3: after the callback has run with `(T, P)`, `get_topic` returns `T` and
`get_msg` returns `P`, and this is still so after any sequence of
`get_topic`, `get_msg` and `publish_message` calls: none of them changes
`_msg` or `_topic`. -/
theorem last_message_survives_reads {τ : Type} (lib : MQTTLib τ) (self : MqttClient τ)
    (T P : String) (w : World) (ops : List Access) :
    ((runAccesses lib (self, callback T P w) ops).1.get_topic
        (runAccesses lib (self, callback T P w) ops).2).1 = T ∧
    ((runAccesses lib (self, callback T P w) ops).1.get_msg
        (runAccesses lib (self, callback T P w) ops).2).1 = P ∧
    (self.get_topic (callback T P w)).2 = callback T P w ∧
    (self.get_msg (callback T P w)).2 = callback T P w := by
  have key : ∀ (ops : List Access) (sw : MqttClient τ × World),
      (runAccesses lib sw ops).2._topic = sw.2._topic ∧
      (runAccesses lib sw ops).2._msg = sw.2._msg := by
    intro ops
    induction ops with
    | nil => intro sw; exact ⟨rfl, rfl⟩
    | cons op ops ih =>
      intro sw
      have step : (runAccess lib sw op).2._topic = sw.2._topic ∧
          (runAccess lib sw op).2._msg = sw.2._msg := by
        cases op with
        | get_topic => exact ⟨rfl, rfl⟩
        | get_msg => exact ⟨rfl, rfl⟩
        | publish_message topic msg =>
          simp only [runAccess, MqttClient.publish_message]
          split <;> exact ⟨rfl, rfl⟩
      have := ih (runAccess lib sw op)
      simp only [runAccesses, List.foldl_cons] at this ⊢
      exact ⟨this.1.trans step.1, this.2.trans step.2⟩
  obtain ⟨k1, k2⟩ := key ops (self, callback T P w)
  refine ⟨?_, ?_, rfl, rfl⟩
  · simp only [MqttClient.get_topic]
    rw [k1]; rfl
  · simp only [MqttClient.get_msg]
    rw [k2]; rfl

/-- C4: from every state, `reset_msg` followed by `get_topic` and `get_msg`
yields the empty string for both; and the end-to-end scenario (two topics,
`connect("cell1")`, a delivery of ("sensors/weight", "12.34"), `reset_msg`)
returns and ends with both accessors giving "". -/
theorem reset_msg_clears {τ : Type} (lib : MQTTLib τ) :
    (∀ (self : MqttClient τ) (w : World),
      (self.get_topic (self.reset_msg w)).1 = "" ∧
      (self.get_msg ((self.get_topic (self.reset_msg w)).2)).1 = "") ∧
    (∀ (w : World) (k fuel : Nat),
      FirstSuccessAt lib "cell1"
        (MqttClient.newWithTopics lib "10.0.0.5" 1883
          ["sensors/weight", "sensors/status"] 2 w).1._mqtt_client k →
      k < fuel → scenario lib fuel w = some ("", "")) := by
  refine ⟨fun self w => ⟨rfl, rfl⟩, fun w k fuel hk hf => ?_⟩
  obtain ⟨self1, w1, evs, e, _⟩ :=
    connect_ok lib
      (MqttClient.newWithTopics lib "10.0.0.5" 1883
        ["sensors/weight", "sensors/status"] 2 w).1 "cell1"
      (MqttClient.newWithTopics lib "10.0.0.5" 1883
        ["sensors/weight", "sensors/status"] 2 w).2 k fuel
      (by simp [MqttClient.WellFormed, MqttClient.newWithTopics]) hk hf
  simp only [scenario, e]
  rfl

/-- An instance of the scenario on `demoLib`, started at boot. -/
theorem reset_msg_clears_witness :
    FirstSuccessAt demoLib "cell1"
      (MqttClient.newWithTopics demoLib "10.0.0.5" 1883
        ["sensors/weight", "sensors/status"] 2 World.boot).1._mqtt_client 1 ∧
    1 < 2 ∧ scenario demoLib 2 World.boot = some ("", "") :=
  ⟨by decide, by decide,
    (reset_msg_clears demoLib).2 World.boot 1 2 (by decide) (by decide)⟩

/-- C8: after any non-empty sequence of deliveries the accessors return the
last topic and payload; the whole state is the one a single delivery of the
last message would have left, so nothing of an earlier message remains; a
newer delivery overwrites both fields of the older one. -/
theorem only_last_delivery_retained {τ : Type} (self : MqttClient τ)
    (ds : List (String × String)) (T P : String) (w : World) :
    (self.get_topic (deliver (ds ++ [(T, P)]) w)).1 = T ∧
    (self.get_msg (deliver (ds ++ [(T, P)]) w)).1 = P ∧
    deliver (ds ++ [(T, P)]) w = callback T P w ∧
    (∀ T0 P0 : String, callback T P (callback T0 P0 w) = callback T P w) := by
  have h := deliver_snoc ds T P w
  refine ⟨?_, ?_, h, fun _ _ => rfl⟩
  · rw [h]; rfl
  · rw [h]; rfl

/-- C9: `WifiClient::connect` starts the association exactly once, with the
network name and passphrase given to the constructor, then polls the status.
When the first "connected" is observation `k` (0-based) it returns after
exactly `k + 1` status queries and `k` waits of 500 ms, the last status seen
being `WL_CONNECTED`, and with fewer than `k + 1` queries allowed it does not
return; whenever it returns, a status query has answered `WL_CONNECTED`. -/
theorem wifi_connect_polls_until_connected {ω : Type} (wifi : WiFiLib ω)
    (ssid pass : String) (p : ω) (w : World) :
    (∀ k fuel : Nat, FirstConnectedAt wifi (wifi.begin p ssid pass) k → k < fuel →
      (∃ p1 w1, (WifiClient.new ssid pass).connect wifi fuel p w = some (p1, w1) ∧
        w1.calls = w.calls ++ [Event.wifiBegin ssid pass] ++
          pollCalls wifi k (wifi.begin p ssid pass) ++ [Event.wifiLocalIP] ∧
        associations (w1.calls.drop w.calls.length) = [(ssid, pass)] ∧
        statusQueries (w1.calls.drop w.calls.length) = k + 1 ∧
        waits (w1.calls.drop w.calls.length) = List.replicate k 500 ∧
        (pollCalls wifi k (wifi.begin p ssid pass)).getLast? =
          some (Event.wifiStatus wifi.WL_CONNECTED)) ∧
      (∀ n, n ≤ k → (WifiClient.new ssid pass).connect wifi n p w = none)) ∧
    (∀ (fuel : Nat) (r : ω × World),
      (WifiClient.new ssid pass).connect wifi fuel p w = some r →
      ∃ j, j < fuel ∧ FirstConnectedAt wifi (wifi.begin p ssid pass) j) := by
  refine ⟨fun k fuel hk hf => ⟨?_, fun n hn => ?_⟩, fun fuel r h => ?_⟩
  · obtain ⟨q1, q2, q3, q4⟩ := projections_of_pollCalls wifi k (wifi.begin p ssid pass)
    obtain ⟨w1, e, c, _⟩ :=
      statusLoop_ok wifi k fuel (wifi.begin p ssid pass)
        ((w.print ("Connecting to WPA SSID [" ++ ssid ++ "]...")).call
          (Event.wifiBegin ssid pass)) hk hf
    have hcalls : ((((w1.println "").println "WiFi connected").println
        "IP address is: ").call Event.wifiLocalIP).calls =
        w.calls ++ (Event.wifiBegin ssid pass ::
          (pollCalls wifi k (wifi.begin p ssid pass) ++ [Event.wifiLocalIP])) := by
      simp [World.call, World.println, World.print, c]
    refine ⟨statusState wifi (k + 1) (wifi.begin p ssid pass),
      ((((w1.println "").println "WiFi connected").println "IP address is: ").call
        Event.wifiLocalIP).println
        (wifi.localIP (statusState wifi (k + 1) (wifi.begin p ssid pass))),
      ?_, ?_, ?_, ?_, ?_, q4⟩
    · simp only [WifiClient.connect, WifiClient.new, e]
    · show ((((w1.println "").println "WiFi connected").println
        "IP address is: ").call Event.wifiLocalIP).calls = _
      rw [hcalls]; simp
    · show associations (List.drop w.calls.length ((((w1.println "").println
        "WiFi connected").println "IP address is: ").call Event.wifiLocalIP).calls) = _
      rw [hcalls, List.drop_left]
      unfold associations at q3 ⊢
      rw [List.filterMap_cons, List.filterMap_append, q3]; rfl
    · show statusQueries (List.drop w.calls.length ((((w1.println "").println
        "WiFi connected").println "IP address is: ").call Event.wifiLocalIP).calls) = _
      rw [hcalls, List.drop_left]
      unfold statusQueries at q1 ⊢
      rw [List.countP_cons, List.countP_append, q1]; rfl
    · show waits (List.drop w.calls.length ((((w1.println "").println
        "WiFi connected").println "IP address is: ").call Event.wifiLocalIP).calls) = _
      rw [hcalls, List.drop_left]
      unfold waits at q2 ⊢
      rw [List.filterMap_cons, List.filterMap_append, q2]; simp
  · simp [WifiClient.connect, WifiClient.new, statusLoop_none wifi n k _ _ hk hn]
  · simp only [WifiClient.connect, WifiClient.new] at h
    cases h1 : statusLoop wifi fuel (wifi.begin p ssid pass)
        ((w.print ("Connecting to WPA SSID [" ++ ssid ++ "]...")).call
          (Event.wifiBegin ssid pass)) with
    | none => simp [h1] at h
    | some r1 => exact statusLoop_some wifi fuel _ _ r1 h1

/-- An instance on `scriptedWiFi` observing 6, 0 and then `WL_CONNECTED`. -/
theorem wifi_connect_polls_until_connected_witness :
    FirstConnectedAt scriptedWiFi (scriptedWiFi.begin demoStatuses "home" "secret") 2 ∧
    2 < 3 ∧
    ((∃ p1 w1,
        (WifiClient.new "home" "secret").connect scriptedWiFi 3 demoStatuses World.boot =
          some (p1, w1) ∧
        w1.calls = World.boot.calls ++ [Event.wifiBegin "home" "secret"] ++
          pollCalls scriptedWiFi 2 (scriptedWiFi.begin demoStatuses "home" "secret") ++
          [Event.wifiLocalIP] ∧
        associations (w1.calls.drop World.boot.calls.length) = [("home", "secret")] ∧
        statusQueries (w1.calls.drop World.boot.calls.length) = 2 + 1 ∧
        waits (w1.calls.drop World.boot.calls.length) = List.replicate 2 500 ∧
        (pollCalls scriptedWiFi 2
          (scriptedWiFi.begin demoStatuses "home" "secret")).getLast? =
          some (Event.wifiStatus scriptedWiFi.WL_CONNECTED)) ∧
      (∀ n, n ≤ 2 →
        (WifiClient.new "home" "secret").connect scriptedWiFi n demoStatuses World.boot =
          none)) ∧
    (∃ j, j < 3 ∧
      FirstConnectedAt scriptedWiFi (scriptedWiFi.begin demoStatuses "home" "secret") j) :=
  ⟨by decide, by decide,
    (wifi_connect_polls_until_connected scriptedWiFi "home" "secret" demoStatuses
      World.boot).1 2 3 (by decide) (by decide),
    (wifi_connect_polls_until_connected scriptedWiFi "home" "secret" demoStatuses
      World.boot).2 3 _ rfl⟩

/-- C10: `_msg` and `_topic` are one pair shared by all sessions.  A delivery
of `(T, P)` is seen through the accessors of any two sessions `A` and `B`,
also when it arrives through the library object of `A` during
`check_connection`; `reset_msg` on `A` empties what `B` reads; and neither
constructor changes the pair. -/
theorem last_message_is_process_wide {τ : Type} (lib : MQTTLib τ) (A B : MqttClient τ)
    (T P : String) (w : World) :
    ((A.get_topic (callback T P w)).1 = T ∧ (A.get_msg (callback T P w)).1 = P ∧
      (B.get_topic (callback T P w)).1 = T ∧ (B.get_msg (callback T P w)).1 = P) ∧
    ((B.get_topic (A.reset_msg w)).1 = "" ∧ (B.get_msg (A.reset_msg w)).1 = "") ∧
    (∀ (ip : String) (port : Int),
      (MqttClient.new lib ip port w).2._topic = w._topic ∧
      (MqttClient.new lib ip port w).2._msg = w._msg) ∧
    (∀ (ip : String) (port : Int) (L : List String) (n : Int),
      (MqttClient.newWithTopics lib ip port L n w).2._topic = w._topic ∧
      (MqttClient.newWithTopics lib ip port L n w).2._msg = w._msg) ∧
    (∀ (ds : List (String × String)) (cid : String) (fuel : Nat),
      (lib.loop A._mqtt_client).1 = ds ++ [(T, P)] →
      (lib.connected (lib.loop A._mqtt_client).2).1 = true →
      ∃ A1 w1, A.check_connection lib fuel cid w = some (A1, w1) ∧
        (B.get_topic w1).1 = T ∧ (B.get_msg w1).1 = P) := by
  refine ⟨⟨rfl, rfl, rfl, rfl⟩, ⟨rfl, rfl⟩, fun _ _ => ⟨rfl, rfl⟩, fun _ _ _ _ => ⟨rfl, rfl⟩,
    fun ds cid fuel hl hc => ?_⟩
  refine ⟨{ A with _mqtt_client := (lib.connected (lib.loop A._mqtt_client).2).2 },
    (deliver (lib.loop A._mqtt_client).1 (w.call Event.mqttLoop)).call
      (Event.connected true), ?_, ?_, ?_⟩
  · simp [MqttClient.check_connection, hc]
  · rw [hl, deliver_snoc]; rfl
  · rw [hl, deliver_snoc]; rfl

/-- An instance: two messages arrive through the library object of
`busySession` and are read through `offSession`. -/
theorem last_message_is_process_wide_witness :
    (busyLib.loop busySession.1._mqtt_client).1 = [("t1", "p1")] ++ [("t2", "p2")] ∧
    (busyLib.connected (busyLib.loop busySession.1._mqtt_client).2).1 = true ∧
    ∃ A1 w1,
      busySession.1.check_connection busyLib 0 "cell1" busySession.2 = some (A1, w1) ∧
      (offSession.1.get_topic w1).1 = "t2" ∧ (offSession.1.get_msg w1).1 = "p2" :=
  ⟨by decide, by decide,
    (last_message_is_process_wide busyLib busySession.1 offSession.1 "t2" "p2"
      busySession.2).2.2.2.2 [("t1", "p1")] "cell1" 0 (by decide) (by decide)⟩

end PetPal
